import Mathlib

set_option maxRecDepth 4000

/-!
Shallow embedding of the `scratch_socks5` SOCKS5 client core
(src/lib.rs, src/client.rs, src/util/stream.rs, src/util/target_addr.rs).

Bytes are modelled as `Nat` (the source only ever stores values < 256 in
them); the duplex channel of a session is modelled as an input byte list
(bytes the proxy will send) plus an output byte list (bytes written so
far).  Rust panics (`unreachable!`, `todo!`, slice-index panics) are
modelled by the `crash` constructor of `Outcome`.
-/

namespace ScratchSocks5

/-- Wire constants from `pub mod consts` in src/lib.rs. -/
def SOCKS5_VERSION : Nat := 0x05

def SOCKS5_CMD_TCP_CONNECT : Nat := 0x01

def SOCKS5_CMD_TCP_BIND : Nat := 0x02

def SOCKS5_CMD_UDP_ASSOCIATE : Nat := 0x03

def SOCKS5_REPLY_SUCCEEDED : Nat := 0x00

/-- Rust `Socks5Command` from src/lib.rs. -/
inductive Socks5Command
  | TCPConnect
  | TCPBind
  | UDPAssociate
deriving DecidableEq, Repr

/-- Rust `Socks5Command::as_u8` from src/lib.rs. -/
def Socks5Command.as_u8 : Socks5Command → Nat
  | .TCPConnect => SOCKS5_CMD_TCP_CONNECT
  | .TCPBind => SOCKS5_CMD_TCP_BIND
  | .UDPAssociate => SOCKS5_CMD_UDP_ASSOCIATE

/-- Rust `AuthenticationMethod` from src/lib.rs (strings as byte lists). -/
inductive AuthenticationMethod
  | None
  | Password (username : List Nat) (password : List Nat)
deriving DecidableEq, Repr

/-- Rust `std::net::SocketAddr`, restricted to what the client inspects:
an IPv4 address is its four octets plus the port; an IPv6 address is
never deconstructed by the code, so only its port is kept. -/
inductive SocketAddr
  | V4 (a b c d : Nat) (port : Nat)
  | V6 (port : Nat)
deriving DecidableEq, Repr

/-- Rust `TargetAddr` from src/util/target_addr.rs (domain as byte list). -/
inductive TargetAddr
  | Ip (addr : SocketAddr)
  | Domain (name : List Nat) (port : Nat)
deriving DecidableEq, Repr

/-- Rust `ReplyError` from src/lib.rs. -/
inductive ReplyError
  | Succeeded
  | GeneralFailure
  | ConnectionNotAllowed
  | NetworkUnreachable
  | HostUnreachable
  | ConnectionRefused
  | ConnectionTimeout
  | TtlExpired
  | CommandNotSupported
  | AddressTypeNotSupported
deriving DecidableEq, Repr

/-- Rust `std::io::ErrorKind`, restricted to the kinds `tcp_connect`
distinguishes plus a tag for every other kind. -/
inductive IOErrorKind
  | ConnectionRefused
  | ConnectionAborted
  | ConnectionReset
  | NotConnected
  | OtherKind (tag : Nat)
deriving DecidableEq, Repr

/-- Rust `SocksError` from src/lib.rs.  `Other` covers the `anyhow::Error`
variant (its message kept as a string). -/
inductive SocksError
  | IoErr (kind : IOErrorKind)
  | Other (msg : String)
  | ReplyError (e : ReplyError)
  | ExceededMaxDomainLen (n : Nat)
  | UnsupportedSocksVersion (v : Nat)
deriving DecidableEq, Repr

/-- Result of a fallible Rust computation: `ok` and `err` mirror
`Result<T, SocksError>`, and `crash` models a panic
(`unreachable!`, `todo!`, or a slice-index panic). -/
inductive Outcome (α : Type)
  | ok (a : α)
  | err (e : SocksError)
  | crash (msg : String)
deriving DecidableEq, Repr

instance : Monad Outcome where
  pure := Outcome.ok
  bind x f :=
    match x with
    | .ok a => f a
    | .err e => .err e
    | .crash m => .crash m

/-- Whether an outcome is a modelled panic. -/
def Outcome.isCrash : Outcome α → Bool
  | .crash _ => true
  | _ => false

/-- Rust `ReplyError::from_u8` from src/lib.rs: only `SOCKS5_REPLY_SUCCEEDED`
(0x00) is matched; every other code falls into
`unreachable!("ReplyError code unsupported.")`, i.e. a panic. -/
def ReplyError.from_u8 (code : Nat) : Outcome ReplyError :=
  if code = SOCKS5_REPLY_SUCCEEDED then .ok .Succeeded
  else .crash "ReplyError code unsupported."

/-- Rust `Config` from src/client.rs (the timeout as an abstract duration). -/
structure Config where
  connect_timeout : Option Nat
  skip_auth : Bool
deriving DecidableEq, Repr

/-- Rust `Config::default` from src/client.rs. -/
def Config.default : Config := { connect_timeout := none, skip_auth := false }

/-- Rust `Config::set_connect_timeout` from src/client.rs. -/
def Config.set_connect_timeout (c : Config) (n : Nat) : Config :=
  { c with connect_timeout := some n }

/-- Rust `Config::set_skip_auth` from src/client.rs. -/
def Config.set_skip_auth (c : Config) (value : Bool) : Config :=
  { c with skip_auth := value }

/-- Rust `Socks5Stream` from src/client.rs: the generic socket `S` is
modelled as the bytes still to be read (`input`) plus the bytes written
so far (`output`). -/
structure Socks5Stream where
  input : List Nat
  output : List Nat
  target_addr : Option TargetAddr
  config : Config
deriving DecidableEq, Repr

/-- Outcome of the underlying `TcpStream::connect` dial, as seen by
`tcp_connect`: success, or an I/O error of some kind. -/
inductive DialResult
  | ok
  | errKind (k : IOErrorKind)
deriving DecidableEq, Repr

/-- Rust `tcp_connect` from src/util/stream.rs: the error-kind to
`ReplyError` mapping, every unlisted kind passed through as a raw
`SocksError::Io`. -/
def tcp_connect (r : DialResult) : Outcome Unit :=
  match r with
  | .ok => .ok ()
  | .errKind IOErrorKind.ConnectionRefused => .err (.ReplyError .ConnectionRefused)
  | .errKind IOErrorKind.ConnectionAborted => .err (.ReplyError .ConnectionNotAllowed)
  | .errKind IOErrorKind.ConnectionReset => .err (.ReplyError .ConnectionNotAllowed)
  | .errKind IOErrorKind.NotConnected => .err (.ReplyError .NetworkUnreachable)
  | .errKind k => .err (.IoErr k)

/-- The dial step of `connect_raw` (src/client.rs line 96): the source
calls `tcp_connect(addr)` without passing any part of `config`; the
`connect_timeout` field is never read anywhere in the repository. -/
def connect_raw_dial (config : Config) (dial : DialResult) : Outcome Unit :=
  tcp_connect dial

/-- Rust `Socks5Stream::use_stream` from src/client.rs: builds the session
state; the method list is assembled exactly as in the source, but the
negotiation send/receive calls are commented out there, so no bytes are
exchanged on either branch of the `skip_auth` test. -/
def use_stream (socket : List Nat) (auth : Option AuthenticationMethod)
    (config : Config) : Outcome Socks5Stream :=
  let stream : Socks5Stream :=
    { input := socket, output := [], target_addr := none, config := config }
  let methods := AuthenticationMethod.None ::
    (match auth with | some m => [m] | none => [])
  if !stream.config.skip_auth then
    Outcome.ok stream
  else
    Outcome.ok stream

/-- Rust `u16::to_be_bytes` for a port value. -/
def be16 (p : Nat) : List Nat := [p / 256 % 256, p % 256]

/-- Rust's `packet[start..stop].copy_from_slice(&src)`: panics when the
range is out of bounds or the source length differs from the range
length, otherwise replaces that range. -/
def copy_from_slice (packet : List Nat) (start stop : Nat) (src : List Nat) :
    Outcome (List Nat) :=
  if stop ≤ packet.length ∧ start ≤ stop ∧ src.length = stop - start then
    .ok (packet.take start ++ src ++ packet.drop stop)
  else .crash "copy_from_slice range mismatch"

/-- Rust's `packet[i] = v`: panics when the index is out of bounds. -/
def setByte (packet : List Nat) (i : Nat) (v : Nat) : Outcome (List Nat) :=
  if i < packet.length then .ok (packet.take i ++ [v] ++ packet.drop (i + 1))
  else .crash "index out of bounds"

/-- Rust constant `MAX_ADDR_LEN` from src/client.rs. -/
def MAX_ADDR_LEN : Nat := 260

/-- The packet-building part of `Socks5Stream::request_header`
(src/client.rs lines 184-230): fills the fixed
`[0u8; MAX_ADDR_LEN + 3]` buffer and computes `padding`, returning both. -/
def build_request_packet (target : Option TargetAddr) (cmd : Socks5Command) :
    Outcome (List Nat × Nat) := do
  let packet0 := List.replicate (MAX_ADDR_LEN + 3) 0
  let packet ← copy_from_slice packet0 0 3 [SOCKS5_VERSION, cmd.as_u8, 0x00]
  match target with
  | none =>
    if cmd = Socks5Command.UDPAssociate then do
      let padding := 10
      let packet ← setByte packet 3 0x01
      let packet ← copy_from_slice packet 4 8 [0, 0, 0, 0]
      let packet ← copy_from_slice packet 8 padding [0, 0]
      return (packet, padding)
    else
      Outcome.err (.Other "target addr should be present")
  | some (TargetAddr.Ip (SocketAddr.V4 a b c d port)) => do
    let padding := 10
    let packet ← setByte packet 3 0x01
    let packet ← copy_from_slice packet 4 8 [a, b, c, d]
    let packet ← copy_from_slice packet 8 padding (be16 port)
    return (packet, padding)
  | some (TargetAddr.Ip (SocketAddr.V6 _)) =>
    Outcome.err (.Other "unsupported ipv6")
  | some (TargetAddr.Domain domain port) =>
    if domain.length > 255 then
      Outcome.err (.ExceededMaxDomainLen domain.length)
    else do
      let padding := 5 + domain.length + 2
      let packet ← setByte packet 3 0x03
      let packet ← setByte packet 4 domain.length
      let packet ← copy_from_slice packet 5 (5 + domain.length) domain
      let packet ← copy_from_slice packet (5 + domain.length) padding (be16 port)
      return (packet, padding)

/-- Rust `Socks5Stream::request_header` from src/client.rs: builds the
packet, then writes `packet[..padding]` (whose slicing panics if
`padding` exceeded the buffer) to the socket and flushes.  On an error
outcome nothing has been written and the stream state is unchanged. -/
def request_header (s : Socks5Stream) (cmd : Socks5Command) :
    Outcome Unit × Socks5Stream :=
  match build_request_packet s.target_addr cmd with
  | .ok (packet, padding) =>
    if padding ≤ packet.length then
      (.ok (), { s with output := s.output ++ packet.take padding })
    else (.crash "slice index out of range", s)
  | .err e => (.err e, s)
  | .crash m => (.crash m, s)

/-- Rust `Socks5Stream::read_request_reply` from src/client.rs: reads
exactly 4 bytes `[version, reply, rsv, address_type]`, checks the
version, maps a non-zero reply code through `ReplyError::from_u8`
(which panics), and on the success path reaches `todo!()`, i.e. a
panic. -/
def read_request_reply (s : Socks5Stream) : Outcome TargetAddr × Socks5Stream :=
  match s.input with
  | version :: reply :: _rsv :: _address_type :: rest =>
    let s' : Socks5Stream := { s with input := rest }
    let out : Outcome TargetAddr :=
      if version ≠ SOCKS5_VERSION then
        .err (.UnsupportedSocksVersion version)
      else if reply ≠ SOCKS5_REPLY_SUCCEEDED then
        match ReplyError.from_u8 reply with
        | .ok e => .err (.ReplyError e)
        | .err e => .err e
        | .crash m => .crash m
      else
        .crash "not yet implemented"
    (out, s')
  | _ => (.err (.Other "Received malformed reply"), s)

/-- Rust `Socks5Stream::request` from src/client.rs: unconditionally stores
the target address, sends the request header, then reads the reply. -/
def request (s : Socks5Stream) (cmd : Socks5Command)
    (target_addr : TargetAddr) : Outcome TargetAddr × Socks5Stream :=
  let s0 : Socks5Stream := { s with target_addr := some target_addr }
  match request_header s0 cmd with
  | (.ok _, s1) => read_request_reply s1
  | (.err e, s1) => (.err e, s1)
  | (.crash m, s1) => (.crash m, s1)

/-! Helper lemmas about the embedded operations. -/

theorem Outcome.bind_ok (a : α) (f : α → Outcome β) :
    (Outcome.ok a >>= f) = f a := rfl

theorem copy_from_slice_ok (packet : List Nat) (start stop : Nat) (src : List Nat)
    (h1 : stop ≤ packet.length) (h2 : start ≤ stop) (h3 : src.length = stop - start) :
    copy_from_slice packet start stop src =
      .ok (packet.take start ++ src ++ packet.drop stop) := by
  unfold copy_from_slice
  rw [if_pos ⟨h1, h2, h3⟩]

theorem copy_from_slice_length (packet : List Nat) (start stop : Nat) (src : List Nat)
    (h1 : stop ≤ packet.length) (h2 : start ≤ stop) (h3 : src.length = stop - start) :
    (packet.take start ++ src ++ packet.drop stop).length = packet.length := by
  simp [List.length_append, List.length_take, List.length_drop, h3]
  omega

theorem setByte_ok (packet : List Nat) (i v : Nat) (h : i < packet.length) :
    setByte packet i v = .ok (packet.take i ++ [v] ++ packet.drop (i + 1)) := by
  unfold setByte
  rw [if_pos h]

theorem setByte_length (packet : List Nat) (i v : Nat) (h : i < packet.length) :
    (packet.take i ++ [v] ++ packet.drop (i + 1)).length = packet.length := by
  simp [List.length_append, List.length_take, List.length_drop]
  omega

theorem request_header_ok (s : Socks5Stream) (cmd : Socks5Command)
    (packet : List Nat) (padding : Nat)
    (hb : build_request_packet s.target_addr cmd = .ok (packet, padding))
    (hp : padding ≤ packet.length) :
    request_header s cmd =
      (.ok (), { s with output := s.output ++ packet.take padding }) := by
  unfold request_header
  rw [hb]
  exact if_pos hp

theorem request_header_err (s : Socks5Stream) (cmd : Socks5Command) (e : SocksError)
    (hb : build_request_packet s.target_addr cmd = .err e) :
    request_header s cmd = (.err e, s) := by
  unfold request_header
  rw [hb]

theorem request_header_target (s : Socks5Stream) (cmd : Socks5Command) :
    ((request_header s cmd).2).target_addr = s.target_addr := by
  unfold request_header
  split
  · split <;> rfl
  · rfl
  · rfl

theorem read_request_reply_target (s : Socks5Stream) :
    ((read_request_reply s).2).target_addr = s.target_addr := by
  obtain ⟨input, output, ta, config⟩ := s
  rcases input with _ | ⟨v, _ | ⟨r, _ | ⟨x, _ | ⟨y, rest⟩⟩⟩⟩ <;> rfl

theorem request_sets_target (s : Socks5Stream) (cmd : Socks5Command) (ta : TargetAddr) :
    ((request s cmd ta).2).target_addr = some ta := by
  unfold request
  dsimp only
  have h1 := request_header_target { s with target_addr := some ta } cmd
  rcases hrh : request_header { s with target_addr := some ta } cmd with ⟨o, s1⟩
  rw [hrh] at h1
  rcases o with a | e | m
  · simpa [read_request_reply_target s1] using h1
  · simpa using h1
  · simpa using h1

/-! Claim theorems. -/

/-- C1: the spec's reply-code table is not implemented: evaluating the
reply decoder at REP code 0x05 (ConnectionRefused per the table) shows
that `ReplyError.from_u8` reaches `unreachable!` (a panic) for every
non-zero code instead of producing the typed variant, and the REP = 0x00
success path reaches `todo!` (a panic) instead of continuing decoding. -/
theorem C1_reply_decoding_panics :
    ReplyError.from_u8 0x05 = Outcome.crash "ReplyError code unsupported." ∧
    (read_request_reply { input := [0x05, 0x05, 0x00, 0x01, 0, 0, 0, 0, 0, 0], output := [], target_addr := none, config := Config.default }).1 =
      Outcome.crash "ReplyError code unsupported." ∧
    (read_request_reply { input := [0x05, 0x00, 0x00, 0x01, 0, 0, 0, 0, 0, 0], output := [], target_addr := none, config := Config.default }).1 =
      Outcome.crash "not yet implemented" :=
  ⟨rfl, rfl, rfl⟩

/-- C2: with `skip_auth = false` the session construction exchanges no
bytes at all — the negotiation send and receive calls are commented out
in `use_stream`, so the two-message negotiation the claim requires for
this case never happens (the input is left untouched and the output is
empty). -/
theorem C2_no_negotiation_exchange :
    use_stream [0x05, 0x00] none { connect_timeout := none, skip_auth := false } =
      Outcome.ok { input := [0x05, 0x00], output := [], target_addr := none, config := { connect_timeout := none, skip_auth := false } } := rfl

/-- C6: a non-0x05 version byte waiting on the channel at negotiation
time is never examined — `use_stream` with `skip_auth = false` reads
nothing and succeeds — while the connection-reply path does fail with
`UnsupportedSocksVersion 6` on the same bytes. -/
theorem C6_version_check_only_on_reply :
    use_stream [0x06, 0x00] none { connect_timeout := none, skip_auth := false } =
      Outcome.ok { input := [0x06, 0x00], output := [], target_addr := none, config := { connect_timeout := none, skip_auth := false } } ∧
    read_request_reply { input := [0x06, 0x00, 0x00, 0x01], output := [], target_addr := none, config := Config.default } =
      (Outcome.err (SocksError.UnsupportedSocksVersion 0x06),
       { input := [], output := [], target_addr := none, config := Config.default }) :=
  ⟨rfl, rfl⟩

/-- C7: `tcp_connect` maps connection-refused to `ConnectionRefused`,
connection-aborted and connection-reset to `ConnectionNotAllowed`,
not-connected to `NetworkUnreachable`, and passes every other error
kind through as a raw I/O error. -/
theorem C7_tcp_connect_error_mapping :
    tcp_connect (DialResult.errKind IOErrorKind.ConnectionRefused) =
      Outcome.err (SocksError.ReplyError ReplyError.ConnectionRefused) ∧
    tcp_connect (DialResult.errKind IOErrorKind.ConnectionAborted) =
      Outcome.err (SocksError.ReplyError ReplyError.ConnectionNotAllowed) ∧
    tcp_connect (DialResult.errKind IOErrorKind.ConnectionReset) =
      Outcome.err (SocksError.ReplyError ReplyError.ConnectionNotAllowed) ∧
    tcp_connect (DialResult.errKind IOErrorKind.NotConnected) =
      Outcome.err (SocksError.ReplyError ReplyError.NetworkUnreachable) ∧
    ∀ tag : Nat, tcp_connect (DialResult.errKind (IOErrorKind.OtherKind tag)) =
      Outcome.err (SocksError.IoErr (IOErrorKind.OtherKind tag)) :=
  ⟨rfl, rfl, rfl, rfl, fun _ => rfl⟩

/-- C8: `set_connect_timeout` stores the duration, but the stored value
is never consulted: the dial step of `connect_raw` behaves identically
for any two configurations, so no timeout bounds the dial. -/
theorem C8_connect_timeout_never_consulted :
    (∀ (c : Config) (n : Nat),
      (Config.set_connect_timeout c n).connect_timeout = some n) ∧
    (∀ (c1 c2 : Config) (d : DialResult),
      connect_raw_dial c1 d = connect_raw_dial c2 d) :=
  ⟨fun _ _ => rfl, fun _ _ _ => rfl⟩

/-- C9 counterexample: a second `request` on the same session
construction overwrites the already-present `target_addr` with a
different value, so the field does not transition from absent to
present exactly once. -/
theorem C9_counterexample_second_request_overwrites :
    ((request { input := [], output := [], target_addr := none, config := Config.default }
        Socks5Command.TCPConnect (TargetAddr.Domain [97] 1)).2).target_addr =
      some (TargetAddr.Domain [97] 1) ∧
    ((request ((request { input := [], output := [], target_addr := none, config := Config.default }
        Socks5Command.TCPConnect (TargetAddr.Domain [97] 1)).2)
        Socks5Command.TCPConnect (TargetAddr.Domain [98] 2)).2).target_addr =
      some (TargetAddr.Domain [98] 2) ∧
    TargetAddr.Domain [97] 1 ≠ TargetAddr.Domain [98] 2 :=
  ⟨rfl, rfl, by decide⟩

/-- C9 amended: `target_addr` starts absent after `use_stream`, and
every call to `request` unconditionally sets it to the supplied target;
nothing enforces at most one request per construction. -/
theorem C9_amended_target_addr_lifecycle :
    (∀ (input : List Nat) (auth : Option AuthenticationMethod) (config : Config),
      use_stream input auth config =
        Outcome.ok { input := input, output := [], target_addr := none, config := config }) ∧
    (∀ (s : Socks5Stream) (cmd : Socks5Command) (ta : TargetAddr),
      ((request s cmd ta).2).target_addr = some ta) := by
  constructor
  · intro input auth config
    unfold use_stream
    dsimp only
    split <;> rfl
  · intro s cmd ta
    exact request_sets_target s cmd ta

/-- C3 counterexample: for target `perdu.com` port 80 the frame actually
written carries length byte 0x09 (the domain has 9 bytes), not the
claimed 0x0A, and on the all-zero success reply the request does not
return a bound address: it reaches the unimplemented `todo!` and
panics. -/
theorem C3_counterexample_frame_and_reply :
    request { input := [0x05, 0x00, 0x00, 0x01, 0, 0, 0, 0, 0, 0], output := [], target_addr := none, config := { connect_timeout := none, skip_auth := true } } Socks5Command.TCPConnect (TargetAddr.Domain [112, 101, 114, 100, 117, 46, 99, 111, 109] 80) =
      (Outcome.crash "not yet implemented",
       { input := [0, 0, 0, 0, 0, 0], output := [5, 1, 0, 3, 9, 112, 101, 114, 100, 117, 46, 99, 111, 109, 0, 80], target_addr := some (TargetAddr.Domain [112, 101, 114, 100, 117, 46, 99, 111, 109] 80), config := { connect_timeout := none, skip_auth := true } }) ∧
    [5, 1, 0, 3, 9, 112, 101, 114, 100, 117, 46, 99, 111, 109, 0, 80] ≠
      [5, 1, 0, 3, 10, 112, 101, 114, 100, 117, 46, 99, 111, 109, 0, 80] :=
  ⟨rfl, by decide⟩

/-- C3 amended: with `skip_auth = true`, session construction exchanges
nothing, the request frame written for `("perdu.com", 80)` with Connect
is exactly `05 01 00 03 09` ++ "perdu.com" ++ `00 50`, and on the proxy
reply `05 00 00 01 00 00 00 00 00 00` the request panics at the
unimplemented reply decoding instead of returning bound address
`0.0.0.0:0`. -/
theorem C3_amended_perdu_request :
    use_stream [0x05, 0x00, 0x00, 0x01, 0, 0, 0, 0, 0, 0] none { connect_timeout := none, skip_auth := true } =
      Outcome.ok { input := [0x05, 0x00, 0x00, 0x01, 0, 0, 0, 0, 0, 0], output := [], target_addr := none, config := { connect_timeout := none, skip_auth := true } } ∧
    request { input := [0x05, 0x00, 0x00, 0x01, 0, 0, 0, 0, 0, 0], output := [], target_addr := none, config := { connect_timeout := none, skip_auth := true } } Socks5Command.TCPConnect (TargetAddr.Domain [112, 101, 114, 100, 117, 46, 99, 111, 109] 80) =
      (Outcome.crash "not yet implemented",
       { input := [0, 0, 0, 0, 0, 0], output := [5, 1, 0, 3, 9, 112, 101, 114, 100, 117, 46, 99, 111, 109, 0, 80], target_addr := some (TargetAddr.Domain [112, 101, 114, 100, 117, 46, 99, 111, 109] 80), config := { connect_timeout := none, skip_auth := true } }) :=
  ⟨rfl, rfl⟩

/-- C4: for every IPv4 target the request frame written is exactly the
three header bytes, ATYP = 0x01, the four address octets and the
big-endian port — ten bytes, nothing after the port. -/
theorem C4_ipv4_request_encoding (s : Socks5Stream) (cmd : Socks5Command)
    (a b c d p : Nat)
    (h : s.target_addr = some (TargetAddr.Ip (SocketAddr.V4 a b c d p))) :
    request_header s cmd =
      (Outcome.ok (), { s with output := s.output ++ [SOCKS5_VERSION, cmd.as_u8, 0x00, 0x01, a, b, c, d, p / 256 % 256, p % 256] }) := by
  have hb : build_request_packet s.target_addr cmd =
      Outcome.ok (SOCKS5_VERSION :: cmd.as_u8 :: 0x00 :: 0x01 :: a :: b :: c :: d :: (p / 256 % 256) :: (p % 256) :: List.replicate 253 0, 10) := by
    rw [h]; rfl
  exact request_header_ok s cmd
    (SOCKS5_VERSION :: cmd.as_u8 :: 0x00 :: 0x01 :: a :: b :: c :: d :: (p / 256 % 256) :: (p % 256) :: List.replicate 253 0) 10 hb (by simp)

/-- C4 witness: the frame for 93.184.216.34 port 443 with Connect is
exactly `05 01 00 01 5D B8 D8 22 01 BB`. -/
theorem C4_witness_example_ipv4 :
    request_header { input := [], output := [], target_addr := some (TargetAddr.Ip (SocketAddr.V4 93 184 216 34 443)), config := Config.default } Socks5Command.TCPConnect =
      (Outcome.ok (), { input := [], output := [0x05, 0x01, 0x00, 0x01, 0x5D, 0xB8, 0xD8, 0x22, 0x01, 0xBB], target_addr := some (TargetAddr.Ip (SocketAddr.V4 93 184 216 34 443)), config := Config.default }) :=
  C4_ipv4_request_encoding _ Socks5Command.TCPConnect 93 184 216 34 443 rfl

/-! Crash-freedom of the request encoder (claim C10). -/

theorem copy_from_slice_ok_ex (packet : List Nat) (start stop : Nat) (src : List Nat)
    (h1 : stop ≤ packet.length) (h2 : start ≤ stop) (h3 : src.length = stop - start) :
    ∃ out, copy_from_slice packet start stop src = .ok out ∧
      out.length = packet.length :=
  ⟨_, copy_from_slice_ok packet start stop src h1 h2 h3,
    copy_from_slice_length packet start stop src h1 h2 h3⟩

theorem setByte_ok_ex (packet : List Nat) (i v : Nat) (h : i < packet.length) :
    ∃ out, setByte packet i v = .ok out ∧ out.length = packet.length :=
  ⟨_, setByte_ok packet i v h, setByte_length packet i v h⟩

theorem build_domain_too_long (domain : List Nat) (port : Nat) (cmd : Socks5Command)
    (hlen : domain.length > 255) :
    build_request_packet (some (TargetAddr.Domain domain port)) cmd =
      .err (.ExceededMaxDomainLen domain.length) := by
  unfold build_request_packet
  dsimp only
  rw [copy_from_slice_ok (List.replicate (MAX_ADDR_LEN + 3) 0) 0 3
    [SOCKS5_VERSION, cmd.as_u8, 0x00] (by decide) (by decide) (by simp)]
  rw [Outcome.bind_ok]
  rw [if_pos hlen]

theorem build_domain_ok (domain : List Nat) (port : Nat) (cmd : Socks5Command)
    (hl : domain.length ≤ 255) :
    ∃ packet, build_request_packet (some (TargetAddr.Domain domain port)) cmd =
      .ok (packet, 5 + domain.length + 2) ∧ packet.length = MAX_ADDR_LEN + 3 := by
  obtain ⟨p1, e1, l1⟩ := copy_from_slice_ok_ex (List.replicate (MAX_ADDR_LEN + 3) 0)
    0 3 [SOCKS5_VERSION, cmd.as_u8, 0x00] (by norm_num [MAX_ADDR_LEN]) (by omega) (by simp)
  have n1 : p1.length = 263 := by rw [l1]; simp [MAX_ADDR_LEN]
  obtain ⟨p2, e2, l2⟩ := setByte_ok_ex p1 3 0x03 (by omega)
  have n2 : p2.length = 263 := by rw [l2]; exact n1
  obtain ⟨p3, e3, l3⟩ := setByte_ok_ex p2 4 domain.length (by omega)
  have n3 : p3.length = 263 := by rw [l3]; exact n2
  obtain ⟨p4, e4, l4⟩ := copy_from_slice_ok_ex p3 5 (5 + domain.length) domain
    (by omega) (by omega) (by omega)
  have n4 : p4.length = 263 := by rw [l4]; exact n3
  obtain ⟨p5, e5, l5⟩ := copy_from_slice_ok_ex p4 (5 + domain.length)
    (5 + domain.length + 2) (be16 port) (by omega) (by omega)
    (by simp only [be16, List.length_cons, List.length_nil]; omega)
  have n5 : p5.length = 263 := by rw [l5]; exact n4
  refine ⟨p5, ?_, by rw [n5]; simp [MAX_ADDR_LEN]⟩
  unfold build_request_packet
  dsimp only
  rw [e1, Outcome.bind_ok]
  rw [if_neg (by omega)]
  rw [e2, Outcome.bind_ok, e3, Outcome.bind_ok, e4, Outcome.bind_ok, e5, Outcome.bind_ok]
  rfl

/-- C5: for every domain target longer than 255 bytes the request
encoding fails with `ExceededMaxDomainLen` carrying the actual length,
and the stream state — in particular its output — is unchanged. -/
theorem C5_domain_too_long (s : Socks5Stream) (cmd : Socks5Command)
    (domain : List Nat) (port : Nat)
    (hta : s.target_addr = some (TargetAddr.Domain domain port))
    (hlen : domain.length > 255) :
    request_header s cmd =
      (Outcome.err (SocksError.ExceededMaxDomainLen domain.length), s) := by
  apply request_header_err
  rw [hta]
  exact build_domain_too_long domain port cmd hlen

/-- C5 witness: a 300-byte domain name is rejected with
`ExceededMaxDomainLen 300` and nothing is written. -/
theorem C5_witness_domain_300 :
    (List.replicate 300 97).length > 255 ∧
    request_header { input := [], output := [], target_addr := some (TargetAddr.Domain (List.replicate 300 97) 80), config := Config.default } Socks5Command.TCPConnect =
      (Outcome.err (SocksError.ExceededMaxDomainLen 300), { input := [], output := [], target_addr := some (TargetAddr.Domain (List.replicate 300 97) 80), config := Config.default }) := by
  refine ⟨by simp, ?_⟩
  have h := C5_domain_too_long { input := [], output := [], target_addr := some (TargetAddr.Domain (List.replicate 300 97) 80), config := Config.default } Socks5Command.TCPConnect (List.replicate 300 97) 80 rfl (by simp)
  simpa using h

/-- C10: the request encoder never reaches a panic: for every session
state and every command, all writes into the fixed 263-byte packet
buffer are in bounds and the final slice of length `padding` is in
range, so `request_header` returns `ok` or a typed error, never a
crash. -/
theorem C10_request_header_never_panics (s : Socks5Stream) (cmd : Socks5Command) :
    ((request_header s cmd).1).isCrash = false := by
  rcases hta : s.target_addr with _ | ta
  · unfold request_header
    rw [hta]
    cases cmd <;> rfl
  · rcases ta with addr | ⟨domain, port⟩
    · rcases addr with ⟨a, b, c, d, p⟩ | q
      · unfold request_header
        rw [hta]
        rfl
      · unfold request_header
        rw [hta]
        rfl
    · by_cases hl : domain.length > 255
      · have hb := build_domain_too_long domain port cmd hl
        rw [← hta] at hb
        rw [request_header_err s cmd _ hb]
        rfl
      · push_neg at hl
        obtain ⟨pkt, hb, hlen⟩ := build_domain_ok domain port cmd hl
        rw [← hta] at hb
        rw [request_header_ok s cmd pkt (5 + domain.length + 2) hb
          (by rw [hlen]; simp [MAX_ADDR_LEN]; omega)]
        rfl

end ScratchSocks5
